import Mathlib

/-! Verification of the terminal guessing game (game loop, evaluator, menu,
secret provider, session driver) against its natural-language specification.

The definitions below are a shallow embedding of the Rust sources:
`src/game.rs`, `src/menu.rs`, `src/random.rs`, `src/io.rs` and `src/main.rs`.
Machine integers (`u8`, `usize`) are modelled as `Nat` with explicit bounds
where they matter (parsing checks the type's range; all arithmetic here is
comparison only, so no overflow arises).  I/O streams are modelled as lists
of strings: the reader is the list of not-yet-consumed input lines, the
writer is the list of flushed output chunks, in order. -/

set_option maxRecDepth 8192

namespace GuessingGame

/-- Constants defined in `src/main.rs` lines 21-23 (`INVALID_CHOICE`,
`MIN_SECRET = 0`, `MAX_SECRET = 100`); `src/menu.rs` and `src/random.rs` use
the same names via `crate::constants`. -/
def INVALID_CHOICE : String := "Invalid choice!"

/-- Lower bound for generated secrets, from `src/main.rs` line 22. -/
def MIN_SECRET : Nat := 0

/-- Upper (exclusive) bound for generated secrets, from `src/main.rs` line 23. -/
def MAX_SECRET : Nat := 100

/-- Model of Rust `str::trim`, used by `prompt` in `src/io.rs` line 30:
drop whitespace characters from both ends of the string.  (Rust trims
Unicode `White_Space`; `Char.isWhitespace` covers the ASCII subset, which
is identical on all inputs relevant here.) -/
def rustTrim (s : String) : String :=
  (((s.data.dropWhile Char.isWhitespace).reverse.dropWhile Char.isWhitespace).reverse).asString

/-- Accumulator loop for decimal digit parsing: fails on the first
non-digit character, as Rust integer `FromStr` does. -/
def digitsToNat : List Char → Nat → Option Nat
  | [], acc => some acc
  | c :: cs, acc =>
    if c.isDigit then digitsToNat cs (acc * 10 + (c.toNat - 48)) else none

/-- Model of Rust `from_str` for an unsigned integer type whose values are
`0 ≤ v < bound`: an optional leading plus sign, then one or more decimal
digits, and the value must fit in the type (Rust reports overflow during
accumulation; observably this is the same `Option` as parsing the full
number and then range-checking it). A leading minus sign is a parse
failure for unsigned types. -/
def parseUnsigned (bound : Nat) (s : String) : Option Nat :=
  let cs :=
    match s.data with
    | '+' :: rest => rest
    | cs => cs
  match cs with
  | [] => none
  | _ =>
    match digitsToNat cs 0 with
    | some n => if n < bound then some n else none
    | none => none

/-- Rust `u8::from_str`, used for guesses in `src/game.rs` line 54 and
`src/main.rs` line 193. -/
def parseU8 (s : String) : Option Nat := parseUnsigned 256 s

/-- Rust `usize::from_str` (64-bit target), used for menu choices in
`src/menu.rs` line 35 and `src/main.rs` line 105. -/
def parseUsize (s : String) : Option Nat := parseUnsigned (2 ^ 64) s

/-- Errors a game round can end with, from `src/game.rs` lines 16-19 and
`src/main.rs` lines 172-175. `Quit` means the user asked to quit;
`Unknown` "shouldn't happen, but exists to cover unexpected behavior". -/
inductive GameError
  | Quit
  | Unknown
deriving DecidableEq

/-- The evaluator, `Game::evaluate` in `src/game.rs` lines 92-98 (identical
to the free function `evaluate` in `src/main.rs` lines 155-161): compare
guess (`actual`) with the secret and return `Ok` if equal, otherwise `Err`
with the formatted too-low / too-high message.  `format!` renders a `u8`
in decimal, i.e. `Nat.repr`. -/
def evaluate (actual : Nat) (secret : Nat) : Except String Unit :=
  match compare actual secret with
  | Ordering.eq => Except.ok ()
  | Ordering.lt => Except.error (Nat.repr actual ++ " is too low!")
  | Ordering.gt => Except.error (Nat.repr actual ++ " is too high!")

/-- The game state, `struct Game` in `src/game.rs` lines 24-28: a reader
(remaining input lines), the secret, and a writer (output chunks so far). -/
structure Game where
  reader : List String
  secret : Nat
  writer : List String
deriving DecidableEq

/-- One pass of the `while keep_guessing` loop of `Game::play`
(`src/game.rs` lines 50-85, identical to `play_game` in `src/main.rs`
lines 189-222), recursing on the list of input lines.  `res` threads the
Rust local `res`, initialized by the caller to `Err(GameError::Unknown)`
and overwritten by every branch that ends the loop.  Each iteration
writes the prompt chunks `"Guess a number...\n"`, `"> "`, `"\n"` (the
latter two from `prompt` in `src/io.rs`), reads and trims one line, and
parses it as `u8`.  Parse success: evaluate; a wrong guess writes the
verdict plus a blank line and loops, a correct guess writes
`"Correct! "` and ends with `Ok`.  Parse failure: the literal trimmed
text `"quit"` writes `"Quitting...\n"` and ends with `Err(Quit)`; any
other text writes the fixed invalid-input message and loops.  An
exhausted reader models a read that can never return a line (the Rust
code would block or panic in `prompt`, never returning normally), hence
result `none`. -/
def playAux (secret : Nat) :
    List String → List String → Except GameError Unit →
      Game × Option (Except GameError Unit)
  | [], writer, _res => (⟨[], secret, writer⟩, none)
  | line :: rest, writer, res =>
    let guess_value := rustTrim line
    let writer1 := writer ++ ["Guess a number...\n", "> ", "\n"]
    match parseU8 guess_value with
    | some guess =>
      match evaluate guess secret with
      | Except.error value =>
          playAux secret rest (writer1 ++ [value ++ "\n\n"]) res
      | Except.ok _ =>
          (⟨rest, secret, writer1 ++ ["Correct! "]⟩, some (Except.ok ()))
    | none =>
      if guess_value = "quit" then
        (⟨rest, secret, writer1 ++ ["Quitting...\n"]⟩,
          some (Except.error GameError.Quit))
      else
        playAux secret rest
          (writer1 ++ ["Invalid input, please guess an integer belonging to [0,100] or enter \x27quit\x27 to quit playing.\n"])
          res

/-- The fixed invalid-input message written by the game loop
(`src/game.rs` line 80). -/
def invalidInputMsg : String :=
  "Invalid input, please guess an integer belonging to [0,100] or enter \x27quit\x27 to quit playing.\n"

/-- Entry point `Game::play` (`src/game.rs` line 44): run the guessing
loop with `res` initialized to `Err(GameError::Unknown)`, returning the
final state and, when the loop ends normally, its result. -/
def Game.play (g : Game) : Game × Option (Except GameError Unit) :=
  playAux g.secret g.reader g.writer (Except.error GameError.Unknown)

/-- The menu, `menu` in `src/menu.rs` lines 21-44 (identical to
`src/main.rs` lines 91-114): write a header and the numbered options
(1-based), prompt (writing `"> "` and, after the read, `"\n"`), parse the
trimmed input line as `usize`, and accept exactly the values `v` with
`0 < v` and `v ≤ choices.length`, returning the value itself; every
failure yields the single `INVALID_CHOICE` error. -/
def menu (choices : List String) (line : String) :
    List String × Except String Nat :=
  let header := ["\nPlease choose from the following...\n"]
  let opts := choices.enum.map
    (fun p => Nat.repr (p.1 + 1) ++ ") " ++ p.2 ++ "\n")
  let out := header ++ opts ++ ["> ", "\n"]
  match parseUsize (rustTrim line) with
  | some num =>
    if 0 < num ∧ num ≤ choices.length then (out, Except.ok num)
    else (out, Except.error INVALID_CHOICE)
  | none => (out, Except.error INVALID_CHOICE)

/-- The message the session driver prints for a finished round
(`src/main.rs` lines 56-70): `"You quit. "` on `Err(Quit)`, the
unknown-error text on `Err(Unknown)`, `"You won!\n"` otherwise. -/
def outcomeMsg : Except GameError Unit → String
  | Except.error GameError.Quit => "You quit. "
  | Except.error GameError.Unknown => "An unknown Error occurred."
  | Except.ok _ => "You won!\n"

/-- One iteration of the session driver's `while playing` loop
(`src/main.rs` lines 44-82), given the menu result for this iteration
and the outcome the game round would produce if one is played.  Returns
the new value of the `playing` flag and the chunks printed by this
iteration after the menu: choice 1 plays a round then prints the outcome
message and `"Play again?\n"`; choice 2 sets `playing` to `false`; any
other accepted choice prints `INVALID_CHOICE` (via `println!`, hence the
trailing newline); a menu error prints the error's message likewise. -/
def sessionStep (res : Except String Nat) (gameResult : Except GameError Unit) :
    Bool × List String :=
  match res with
  | Except.ok 1 => (true, [outcomeMsg gameResult, "Play again?\n"])
  | Except.ok 2 => (false, [])
  | Except.ok _ => (true, [INVALID_CHOICE ++ "\n"])
  | Except.error reason => (true, [reason ++ "\n"])

/-- The secret provider, `struct NumberGenerator` in `src/random.rs`
lines 5-9: a lazily created random source handle plus the configured
bounds.  The handle type `Rng` (Rust `ThreadRng`) is abstract. -/
structure NumberGenerator (Rng : Type) where
  thread_rng : Option Rng
  max : Nat
  min : Nat

/-- Constructor `NumberGenerator::new` (`src/random.rs` lines 14-20):
no random source yet. -/
def NumberGenerator.new (Rng : Type) (min max : Nat) : NumberGenerator Rng :=
  ⟨none, max, min⟩

/-- The `Default` instance (`src/random.rs` lines 40-45): bounds
`MIN_SECRET`, `MAX_SECRET`. -/
def NumberGenerator.defaultGen (Rng : Type) : NumberGenerator Rng :=
  NumberGenerator.new Rng MIN_SECRET MAX_SECRET

/-- Lazy accessor `get_rng` (`src/random.rs` lines 27-37): return the
stored handle if present; otherwise `init_rng` stores the fresh handle
obtained from `rand::thread_rng()` (modelled by the parameter `fresh`)
and re-enters `get_rng`, which then returns it from the `Some` branch —
here that second step is unfolded. -/
def NumberGenerator.get_rng (fresh : Rng) (ng : NumberGenerator Rng) :
    Rng × NumberGenerator Rng :=
  match ng.thread_rng with
  | some inst => (inst, ng)
  | none => (fresh, { ng with thread_rng := some fresh })

/-- Secret generation `gen_secret` (`src/random.rs` lines 23-25, same
shape as `src/main.rs` lines 132-134): fetch the random source and draw
`gen_range(min, max)`.  The rand crate's `gen_range` is a black box
modelled by the parameter `genRange`; its contract (a uniform draw in
`[lo, hi)`) is a hypothesis of the theorems below. -/
def NumberGenerator.gen_secret (fresh : Rng) (genRange : Rng → Nat → Nat → Nat)
    (ng : NumberGenerator Rng) : Nat × NumberGenerator Rng :=
  let p := ng.get_rng fresh
  (genRange p.1 p.2.min p.2.max, p.2)

/-! Helper lemmas shared by the claim theorems. -/

/-- Trimming the literal quit token is the identity. -/
theorem rustTrim_quit : rustTrim "quit" = "quit" := by decide

/-- The quit token is not a `u8` numeral. -/
theorem parseU8_quit : parseU8 "quit" = none := by decide

/-- Every `u8` value from 101 to 255 parses back from its decimal
representation. -/
theorem parseU8_repr_of_large :
    ∀ n : Nat, n < 256 → 101 ≤ n → parseU8 (Nat.repr n) = some n := by decide

/-- A guess equal to the secret evaluates to `Ok`. -/
theorem evaluate_eq_ok (n : Nat) : evaluate n n = Except.ok () := by
  unfold evaluate
  rw [Nat.compare_eq_eq.mpr rfl]

/-- A low guess evaluates to the too-low message. -/
theorem evaluate_lt_msg (a s : Nat) (h : a < s) :
    evaluate a s = Except.error (Nat.repr a ++ " is too low!") := by
  unfold evaluate
  rw [Nat.compare_eq_lt.mpr h]

/-- A high guess evaluates to the too-high message. -/
theorem evaluate_gt_msg (a s : Nat) (h : s < a) :
    evaluate a s = Except.error (Nat.repr a ++ " is too high!") := by
  unfold evaluate
  rw [Nat.compare_eq_gt.mpr h]

/-- The evaluator accepts exactly the secret. -/
theorem evaluate_ok_iff (a s : Nat) : evaluate a s = Except.ok () ↔ a = s := by
  constructor
  · intro h
    by_contra hne
    rcases Nat.lt_trichotomy a s with hlt | heq | hgt
    · rw [evaluate_lt_msg a s hlt] at h
      exact Except.noConfusion h
    · exact hne heq
    · rw [evaluate_gt_msg a s hgt] at h
      exact Except.noConfusion h
  · rintro rfl
    exact evaluate_eq_ok a

/-- Game-loop step: a parsed wrong guess writes the verdict and loops. -/
theorem playAux_cons_wrong (secret : Nat) (line : String) (rest w : List String)
    (res : Except GameError Unit) (guess : Nat) (value : String)
    (hp : parseU8 (rustTrim line) = some guess)
    (he : evaluate guess secret = Except.error value) :
    playAux secret (line :: rest) w res =
      playAux secret rest
        (w ++ ["Guess a number...\n", "> ", "\n", value ++ "\n\n"]) res := by
  simp only [playAux, hp, he, List.append_assoc, List.cons_append, List.nil_append]

/-- Game-loop step: a parsed correct guess ends the round with `Ok`. -/
theorem playAux_cons_correct (secret : Nat) (line : String) (rest w : List String)
    (res : Except GameError Unit)
    (hp : parseU8 (rustTrim line) = some secret) :
    playAux secret (line :: rest) w res =
      (⟨rest, secret, w ++ ["Guess a number...\n", "> ", "\n", "Correct! "]⟩,
        some (Except.ok ())) := by
  simp only [playAux, hp, evaluate_eq_ok, List.append_assoc, List.cons_append,
    List.nil_append]

/-- Game-loop step: an unparseable line equal to the quit token ends the
round with `Quit`. -/
theorem playAux_cons_quit (secret : Nat) (line : String) (rest w : List String)
    (res : Except GameError Unit)
    (hp : parseU8 (rustTrim line) = none) (hq : rustTrim line = "quit") :
    playAux secret (line :: rest) w res =
      (⟨rest, secret, w ++ ["Guess a number...\n", "> ", "\n", "Quitting...\n"]⟩,
        some (Except.error GameError.Quit)) := by
  simp only [playAux, hp, if_pos hq, List.append_assoc, List.cons_append,
    List.nil_append]

/-- Game-loop step: an unparseable line other than the quit token writes the
invalid-input message and loops. -/
theorem playAux_cons_invalid (secret : Nat) (line : String) (rest w : List String)
    (res : Except GameError Unit)
    (hp : parseU8 (rustTrim line) = none) (hq : rustTrim line ≠ "quit") :
    playAux secret (line :: rest) w res =
      playAux secret rest
        (w ++ ["Guess a number...\n", "> ", "\n", invalidInputMsg]) res := by
  simp only [playAux, hp, if_neg hq, invalidInputMsg, List.append_assoc,
    List.cons_append, List.nil_append]

/-- The loop can only end with the result set by a terminating branch:
`Ok` from a correct guess or `Quit` from the quit token, regardless of the
threaded `res` value. -/
theorem playAux_ok_or_quit :
    ∀ (inputs : List String) (secret : Nat) (w : List String)
      (res r : Except GameError Unit),
      (playAux secret inputs w res).2 = some r →
        r = Except.ok () ∨ r = Except.error GameError.Quit := by
  intro inputs
  induction inputs with
  | nil =>
    intro secret w res r h
    simp [playAux] at h
  | cons line rest ih =>
    intro secret w res r h
    rcases hp : parseU8 (rustTrim line) with _ | guess
    · by_cases hq : rustTrim line = "quit"
      · rw [playAux_cons_quit secret line rest w res hp hq] at h
        simp only [Option.some.injEq] at h
        exact Or.inr h.symm
      · rw [playAux_cons_invalid secret line rest w res hp hq] at h
        exact ih secret _ res r h
    · rcases he : evaluate guess secret with msg | u
      · rw [playAux_cons_wrong secret line rest w res guess msg hp he] at h
        exact ih secret _ res r h
      · have hg : guess = secret := (evaluate_ok_iff guess secret).mp (by rw [he])
        rw [hg] at hp
        rw [playAux_cons_correct secret line rest w res hp] at h
        simp only [Option.some.injEq] at h
        exact Or.inl h.symm

/-- The threaded secret is never modified by the loop. -/
theorem playAux_secret_const :
    ∀ (inputs : List String) (secret : Nat) (w : List String)
      (res : Except GameError Unit),
      (playAux secret inputs w res).1.secret = secret := by
  intro inputs
  induction inputs with
  | nil => intro secret w res; rfl
  | cons line rest ih =>
    intro secret w res
    rcases hp : parseU8 (rustTrim line) with _ | guess
    · by_cases hq : rustTrim line = "quit"
      · rw [playAux_cons_quit secret line rest w res hp hq]
      · rw [playAux_cons_invalid secret line rest w res hp hq]
        exact ih secret _ res
    · rcases he : evaluate guess secret with msg | u
      · rw [playAux_cons_wrong secret line rest w res guess msg hp he]
        exact ih secret _ res
      · have hg : guess = secret := (evaluate_ok_iff guess secret).mp (by rw [he])
        rw [hg] at hp
        rw [playAux_cons_correct secret line rest w res hp]

/-- Once the input list reaches a line that trims to the quit token or
parses to the secret, the loop's output and result no longer depend on the
lines after it, and the loop has produced a result. -/
theorem playAux_stops_at (secret : Nat) (l : String)
    (hl : rustTrim l = "quit" ∨ parseU8 (rustTrim l) = some secret) :
    ∀ (pre post post' w : List String) (res : Except GameError Unit),
      (playAux secret (pre ++ l :: post) w res).1.writer =
        (playAux secret (pre ++ l :: post') w res).1.writer
      ∧ (playAux secret (pre ++ l :: post) w res).2 =
        (playAux secret (pre ++ l :: post') w res).2
      ∧ ((playAux secret (pre ++ l :: post) w res).2).isSome = true := by
  intro pre
  induction pre with
  | nil =>
    intro post post' w res
    simp only [List.nil_append]
    rcases hp : parseU8 (rustTrim l) with _ | guess
    · have hq : rustTrim l = "quit" := by
        rcases hl with hq | hsome
        · exact hq
        · rw [hp] at hsome
          exact Option.noConfusion hsome
      rw [playAux_cons_quit secret l post w res hp hq,
        playAux_cons_quit secret l post' w res hp hq]
      exact ⟨rfl, rfl, rfl⟩
    · have hg : guess = secret := by
        rcases hl with hq | hsome
        · rw [hq, parseU8_quit] at hp
          exact Option.noConfusion hp
        · rw [hp] at hsome
          exact Option.some.inj hsome
      rw [hg] at hp
      rw [playAux_cons_correct secret l post w res hp,
        playAux_cons_correct secret l post' w res hp]
      exact ⟨rfl, rfl, rfl⟩
  | cons p pre ih =>
    intro post post' w res
    simp only [List.cons_append]
    rcases hp : parseU8 (rustTrim p) with _ | guess
    · by_cases hq : rustTrim p = "quit"
      · rw [playAux_cons_quit secret p (pre ++ l :: post) w res hp hq,
          playAux_cons_quit secret p (pre ++ l :: post') w res hp hq]
        exact ⟨rfl, rfl, rfl⟩
      · rw [playAux_cons_invalid secret p (pre ++ l :: post) w res hp hq,
          playAux_cons_invalid secret p (pre ++ l :: post') w res hp hq]
        exact ih post post' _ res
    · rcases he : evaluate guess secret with msg | u
      · rw [playAux_cons_wrong secret p (pre ++ l :: post) w res guess msg hp he,
          playAux_cons_wrong secret p (pre ++ l :: post') w res guess msg hp he]
        exact ih post post' _ res
      · have hg : guess = secret := (evaluate_ok_iff guess secret).mp (by rw [he])
        rw [hg] at hp
        rw [playAux_cons_correct secret p (pre ++ l :: post) w res hp,
          playAux_cons_correct secret p (pre ++ l :: post') w res hp]
        exact ⟨rfl, rfl, rfl⟩

/-- A round whose first input line is the quit token ends at once with
`Quit`, writing only the prompt chunks and the quitting message. -/
theorem play_quit_only_input (secret : Nat) (w : List String) :
    Game.play ⟨["quit"], secret, w⟩ =
      (⟨[], secret, w ++ ["Guess a number...\n", "> ", "\n", "Quitting...\n"]⟩,
        some (Except.error GameError.Quit)) := by
  show playAux secret ["quit"] w (Except.error GameError.Unknown) = _
  rw [playAux_cons_quit secret "quit" [] w (Except.error GameError.Unknown)
    (by rw [rustTrim_quit]; exact parseU8_quit) rustTrim_quit]

/-! Claim theorems. -/

/-- C1: the evaluator is a pure total function of guess and secret: on the
whole `u8` domain it returns `Correct` (`Ok`) exactly when the guess
equals the secret, the too-low message for a low guess, and the too-high
message for a high guess. -/
theorem evaluate_verdict_spec :
    ∀ guess secret : Nat, guess < 256 → secret < 256 →
      ((evaluate guess secret = Except.ok () ↔ guess = secret)
        ∧ (guess < secret →
            evaluate guess secret =
              Except.error (Nat.repr guess ++ " is too low!"))
        ∧ (secret < guess →
            evaluate guess secret =
              Except.error (Nat.repr guess ++ " is too high!"))) := by
  intro guess secret _ _
  exact ⟨evaluate_ok_iff guess secret,
    fun h => evaluate_lt_msg guess secret h,
    fun h => evaluate_gt_msg guess secret h⟩

/-- Witness for C1 at concrete inputs. -/
theorem evaluate_verdict_spec_witness :
    evaluate 3 5 = Except.error "3 is too low!"
      ∧ evaluate 9 5 = Except.error "9 is too high!"
      ∧ evaluate 7 7 = Except.ok () := by
  have h35 := evaluate_verdict_spec 3 5 (by decide) (by decide)
  have h95 := evaluate_verdict_spec 9 5 (by decide) (by decide)
  have h77 := evaluate_verdict_spec 7 7 (by decide) (by decide)
  exact ⟨h35.2.1 (by decide), h95.2.2 (by decide), h77.1.mpr rfl⟩

/-- C2: for options of length `k`, the menu returns `Ok v` exactly when the
trimmed input line parses as an integer `v` with `1 ≤ v ≤ k` (and the
returned value is `v` itself); every failure is the single
`INVALID_CHOICE` error. -/
theorem menu_choice_spec :
    ∀ (choices : List String) (line : String),
      (∀ v : Nat,
        (menu choices line).2 = Except.ok v ↔
          (parseUsize (rustTrim line) = some v ∧ 1 ≤ v ∧ v ≤ choices.length))
      ∧ (∀ e, (menu choices line).2 = Except.error e → e = INVALID_CHOICE) := by
  intro choices line
  rcases hp : parseUsize (rustTrim line) with _ | n
  · constructor
    · intro v
      simp [menu, hp]
    · intro e he
      simp only [menu, hp] at he
      exact (Except.error.inj he).symm
  · by_cases hc : 0 < n ∧ n ≤ choices.length
    · constructor
      · intro v
        simp only [menu, hp, if_pos hc]
        constructor
        · intro h
          have hv : n = v := Except.ok.inj h
          exact ⟨by rw [hv], by omega⟩
        · intro h
          have hv : n = v := Option.some.inj h.1
          rw [hv]
      · intro e he
        simp only [menu, hp, if_pos hc] at he
        exact Except.noConfusion he
    · constructor
      · intro v
        simp only [menu, hp, if_neg hc]
        constructor
        · intro h
          exact Except.noConfusion h
        · intro h
          have hv : n = v := Option.some.inj h.1
          exact absurd ⟨by omega, by omega⟩ hc
      · intro e he
        simp only [menu, hp, if_neg hc] at he
        exact (Except.error.inj he).symm

/-- Witness for C2 at concrete inputs. -/
theorem menu_choice_spec_witness :
    (menu ["play game", "exit"] "2").2 = Except.ok 2
      ∧ (menu ["play game", "exit"] "3").2 = Except.error INVALID_CHOICE := by
  have h2 := (menu_choice_spec ["play game", "exit"] "2").1 2
  refine ⟨h2.mpr ⟨by decide, by decide, by decide⟩, ?_⟩
  have herr := (menu_choice_spec ["play game", "exit"] "3").2
  rcases hm : (menu ["play game", "exit"] "3").2 with e | v
  · rw [herr e hm]
  · exfalso
    have h3 := ((menu_choice_spec ["play game", "exit"] "3").1 v).mp hm
    have hv : parseUsize (rustTrim "3") = some 3 := by decide
    rw [hv] at h3
    have heq : (3 : Nat) = v := Option.some.inj h3.1
    have hlen : v ≤ 2 := by simpa using h3.2.2
    omega

/-- C3: in an iteration whose input fails to parse, a trimmed input equal
to the literal quit token ends the round with the `Quit` error after
writing the quitting message, while any other unparseable input writes
the fixed invalid-input message and the loop goes on to process the
remaining input lines. -/
theorem play_parse_failure_spec :
    ∀ (secret : Nat) (line : String) (rest w : List String),
      parseU8 (rustTrim line) = none →
      ((rustTrim line = "quit" →
          Game.play ⟨line :: rest, secret, w⟩ =
            (⟨rest, secret,
                w ++ ["Guess a number...\n", "> ", "\n", "Quitting...\n"]⟩,
              some (Except.error GameError.Quit)))
        ∧ (rustTrim line ≠ "quit" →
          Game.play ⟨line :: rest, secret, w⟩ =
            Game.play ⟨rest, secret,
              w ++ ["Guess a number...\n", "> ", "\n", invalidInputMsg]⟩)) := by
  intro secret line rest w hp
  constructor
  · intro hq
    exact playAux_cons_quit secret line rest w (Except.error GameError.Unknown) hp hq
  · intro hq
    exact playAux_cons_invalid secret line rest w (Except.error GameError.Unknown) hp hq

/-- Witness for C3 at concrete inputs. -/
theorem play_parse_failure_spec_witness :
    Game.play ⟨["quit"], 4, []⟩ =
      (⟨[], 4, ["Guess a number...\n", "> ", "\n", "Quitting...\n"]⟩,
        some (Except.error GameError.Quit))
      ∧ Game.play ⟨["oops", "1"], 1, []⟩ =
        Game.play ⟨["1"], 1,
          ["Guess a number...\n", "> ", "\n", invalidInputMsg]⟩ := by
  constructor
  · have h := (play_parse_failure_spec 4 "quit" [] [] (by decide)).1 (by decide)
    simpa using h
  · have h := (play_parse_failure_spec 1 "oops" ["1"] [] (by decide)).2 (by decide)
    simpa using h

/-- C4: a terminating run of the game loop results in `Ok` (won) or the
`Quit` error; the defensive `Unknown` value is never returned. -/
theorem play_result_never_unknown :
    ∀ (g : Game) (r : Except GameError Unit),
      (Game.play g).2 = some r →
        r = Except.ok () ∨ r = Except.error GameError.Quit := by
  intro g r h
  exact playAux_ok_or_quit g.reader g.secret g.writer
    (Except.error GameError.Unknown) r h

/-- Witness for C4 at a concrete terminating run. -/
theorem play_result_never_unknown_witness :
    (Except.error GameError.Quit : Except GameError Unit) = Except.ok ()
      ∨ (Except.error GameError.Quit : Except GameError Unit) =
          Except.error GameError.Quit := by
  exact play_result_never_unknown ⟨["quit"], 3, []⟩
    (Except.error GameError.Quit) rfl

/-- C5: the loop runs until won or quit: once the input list contains a
line trimming to the quit token or parsing to the secret, the run's
output and result are already settled there (lines after it are
irrelevant) and a result is produced; in particular the single input
`quit` ends the round at once with `Quit`, with no `Correct! ` output. -/
theorem play_terminates_on_quit_or_secret :
    ∀ (secret : Nat) (l : String) (pre post post' w : List String),
      (rustTrim l = "quit" ∨ parseU8 (rustTrim l) = some secret) →
      (((Game.play ⟨pre ++ l :: post, secret, w⟩).1.writer =
          (Game.play ⟨pre ++ l :: post', secret, w⟩).1.writer
        ∧ (Game.play ⟨pre ++ l :: post, secret, w⟩).2 =
          (Game.play ⟨pre ++ l :: post', secret, w⟩).2
        ∧ ((Game.play ⟨pre ++ l :: post, secret, w⟩).2).isSome = true)
      ∧ (Game.play ⟨["quit"], secret, w⟩ =
          (⟨[], secret,
              w ++ ["Guess a number...\n", "> ", "\n", "Quitting...\n"]⟩,
            some (Except.error GameError.Quit))
        ∧ "Correct! " ∉
            ["Guess a number...\n", "> ", "\n", "Quitting...\n"])) := by
  intro secret l pre post post' w hl
  refine ⟨playAux_stops_at secret l hl pre post post' w
    (Except.error GameError.Unknown), play_quit_only_input secret w, by decide⟩

/-- Witness for C5 at concrete inputs. -/
theorem play_terminates_on_quit_or_secret_witness :
    ((Game.play ⟨["7", "quit", "0"], 9, []⟩).1.writer =
        (Game.play ⟨["7", "quit"], 9, []⟩).1.writer
      ∧ (Game.play ⟨["7", "quit", "0"], 9, []⟩).2 =
        (Game.play ⟨["7", "quit"], 9, []⟩).2
      ∧ ((Game.play ⟨["7", "quit", "0"], 9, []⟩).2).isSome = true)
    ∧ (Game.play ⟨["quit"], 9, []⟩ =
        (⟨[], 9, ["Guess a number...\n", "> ", "\n", "Quitting...\n"]⟩,
          some (Except.error GameError.Quit))
      ∧ "Correct! " ∉
          ["Guess a number...\n", "> ", "\n", "Quitting...\n"]) := by
  have h := play_terminates_on_quit_or_secret 9 "quit" ["7"] ["0"] [] []
    (Or.inl (by decide))
  simpa using h

/-- C6: with secret 1 and inputs `0` then `1`, the round ends after
exactly two iterations (both lines consumed, two prompts written) with
the won result, and the intermediate output contains the too-low
verdict, whose text contains "too low". -/
theorem play_round_secret_one_two_iterations :
    Game.play ⟨["0", "1"], 1, []⟩ =
      (⟨[], 1, ["Guess a number...\n", "> ", "\n", "0 is too low!\n\n",
          "Guess a number...\n", "> ", "\n", "Correct! "]⟩,
        some (Except.ok ()))
    ∧ "0 is too low!\n\n" ∈ (Game.play ⟨["0", "1"], 1, []⟩).1.writer
    ∧ List.IsInfix "too low".data "0 is too low!\n\n".data := by
  refine ⟨rfl, by decide, by decide⟩

/-- C7: with the default configuration (`min = 0`, `max = 100`), every
call of `gen_secret` returns a value in `[0, 100)` for every behavior of
the black-box uniform draw; the random source is created lazily (it is
present after the call) and the generator's state is unchanged by
further calls, so the source is reused. -/
theorem gen_secret_in_range :
    ∀ (Rng : Type) (fresh : Rng) (genRange : Rng → Nat → Nat → Nat),
      (∀ r lo hi, lo < hi → lo ≤ genRange r lo hi ∧ genRange r lo hi < hi) →
      ∀ ng : NumberGenerator Rng, ng.min = MIN_SECRET → ng.max = MAX_SECRET →
        ((MIN_SECRET ≤ (NumberGenerator.gen_secret fresh genRange ng).1
            ∧ (NumberGenerator.gen_secret fresh genRange ng).1 < MAX_SECRET)
          ∧ ((NumberGenerator.gen_secret fresh genRange ng).2.thread_rng).isSome
              = true
          ∧ (NumberGenerator.gen_secret fresh genRange
                ((NumberGenerator.gen_secret fresh genRange ng).2)).2 =
              (NumberGenerator.gen_secret fresh genRange ng).2) := by
  intro Rng fresh genRange hgen ng hmin hmax
  obtain ⟨tr, mx, mn⟩ := ng
  simp only [NumberGenerator.min] at hmin
  simp only [NumberGenerator.max] at hmax
  cases tr with
  | none =>
    have h := hgen fresh mn mx (by rw [hmin, hmax]; decide)
    rw [hmin, hmax] at h
    refine ⟨?_, ?_, ?_⟩
    · simpa [NumberGenerator.gen_secret, NumberGenerator.get_rng, hmin, hmax]
        using h
    · simp [NumberGenerator.gen_secret, NumberGenerator.get_rng]
    · simp [NumberGenerator.gen_secret, NumberGenerator.get_rng]
  | some r =>
    have h := hgen r mn mx (by rw [hmin, hmax]; decide)
    rw [hmin, hmax] at h
    refine ⟨?_, ?_, ?_⟩
    · simpa [NumberGenerator.gen_secret, NumberGenerator.get_rng, hmin, hmax]
        using h
    · simp [NumberGenerator.gen_secret, NumberGenerator.get_rng]
    · simp [NumberGenerator.gen_secret, NumberGenerator.get_rng]

/-- Witness for C7, with the black box instantiated by the draw that
always returns the lower bound. -/
theorem gen_secret_in_range_witness :
    MIN_SECRET ≤
        (NumberGenerator.gen_secret () (fun _ lo _ => lo)
          (NumberGenerator.new Unit MIN_SECRET MAX_SECRET)).1
      ∧ (NumberGenerator.gen_secret () (fun _ lo _ => lo)
          (NumberGenerator.new Unit MIN_SECRET MAX_SECRET)).1 < MAX_SECRET := by
  exact (gen_secret_in_range Unit () (fun _ lo _ => lo)
    (fun r lo hi h => ⟨Nat.le_refl lo, h⟩)
    (NumberGenerator.new Unit MIN_SECRET MAX_SECRET) rfl rfl).1

/-- C8: one step of the session driver: the `playing` flag becomes
`false` exactly on menu choice 2; an `InvalidChoice` menu error prints
the error and keeps the loop running; choice 1 plays a round, prints the
outcome message and the play-again prompt, and keeps the loop running. -/
theorem session_step_spec :
    ∀ (res : Except String Nat) (g : Except GameError Unit),
      (((sessionStep res g).1 = false) ↔ res = Except.ok 2)
      ∧ sessionStep (Except.error INVALID_CHOICE) g =
          (true, [INVALID_CHOICE ++ "\n"])
      ∧ sessionStep (Except.ok 1) g =
          (true, [outcomeMsg g, "Play again?\n"]) := by
  intro res g
  refine ⟨?_, rfl, rfl⟩
  cases res with
  | error e => simp [sessionStep]
  | ok n =>
    match n with
    | 0 => simp [sessionStep]
    | 1 => simp [sessionStep]
    | 2 => simp [sessionStep]
    | (m + 3) => simp [sessionStep]

/-- Witness for C8 at concrete inputs. -/
theorem session_step_spec_witness :
    ((sessionStep (Except.ok 2) (Except.ok ())).1 = false)
      ∧ (sessionStep (Except.error INVALID_CHOICE) (Except.ok ()) =
          (true, [INVALID_CHOICE ++ "\n"])) := by
  have h := session_step_spec (Except.ok 2) (Except.ok ())
  exact ⟨h.1.mpr rfl, (session_step_spec (Except.error INVALID_CHOICE)
    (Except.ok ())).2.1⟩

/-- C9: the secret is immutable for the round's duration: the game loop
returns a state whose secret is the one the round started with, so every
guess of the round was compared against that same secret. -/
theorem play_preserves_secret :
    ∀ g : Game, (Game.play g).1.secret = g.secret := by
  intro g
  exact playAux_secret_const g.reader g.secret g.writer
    (Except.error GameError.Unknown)

/-- Witness for C9 at a concrete input. -/
theorem play_preserves_secret_witness :
    (Game.play ⟨["3", "quit"], 9, []⟩).1.secret = 9 :=
  play_preserves_secret ⟨["3", "quit"], 9, []⟩

/-- C10: the accepted guess domain is all of `u8`, not the `[0, 100]`
range named in the invalid-input message: every decimal numeral of an
integer 101 ≤ n ≤ 255 parses, and such a guess is evaluated (writing the
too-high verdict whenever the secret is below it) instead of triggering
the invalid-input message; the invalid/quit branch runs exactly on lines
whose trimmed text fails to parse as `u8`. -/
theorem guess_domain_full_u8 :
    ∀ n : Nat, 101 ≤ n → n ≤ 255 →
      ((parseU8 (Nat.repr n) = some n
        ∧ ∀ (line : String) (secret : Nat) (rest w : List String),
            rustTrim line = Nat.repr n → secret < n →
              Game.play ⟨line :: rest, secret, w⟩ =
                Game.play ⟨rest, secret,
                  w ++ ["Guess a number...\n", "> ", "\n",
                    Nat.repr n ++ " is too high!" ++ "\n\n"]⟩)
      ∧ ∀ (line : String) (secret : Nat) (rest w : List String),
          parseU8 (rustTrim line) = none → rustTrim line ≠ "quit" →
            Game.play ⟨line :: rest, secret, w⟩ =
              Game.play ⟨rest, secret,
                w ++ ["Guess a number...\n", "> ", "\n", invalidInputMsg]⟩) := by
  intro n h101 h255
  have hparse : parseU8 (Nat.repr n) = some n :=
    parseU8_repr_of_large n (by omega) h101
  refine ⟨⟨hparse, ?_⟩, ?_⟩
  · intro line secret rest w hline hsec
    have hp : parseU8 (rustTrim line) = some n := by rw [hline]; exact hparse
    exact playAux_cons_wrong secret line rest w (Except.error GameError.Unknown)
      n (Nat.repr n ++ " is too high!") hp (evaluate_gt_msg n secret hsec)
  · intro line secret rest w hp hq
    exact playAux_cons_invalid secret line rest w
      (Except.error GameError.Unknown) hp hq

/-- Witness for C10 at concrete inputs. -/
theorem guess_domain_full_u8_witness :
    Game.play ⟨["150"], 1, []⟩ =
      Game.play ⟨[], 1,
        ["Guess a number...\n", "> ", "\n", "150 is too high!\n\n"]⟩ := by
  have h := (guess_domain_full_u8 150 (by decide) (by decide)).1.2
    "150" 1 [] [] (by decide) (by decide)
  simpa using h

end GuessingGame
